import Mathlib

/-!
Verification of the OMPL validity checkers and motion validators of
`voxblox_rrt_planner/include/voxblox_rrt_planner/ompl/ompl_voxblox.h`.

Shallow embedding conventions:
* Continuous 3D positions (`Eigen::Vector3d`) are rational triples `Pos3`;
  global voxel indices (`voxblox::GlobalIndex`) are integer triples.
* The external voxblox / cblox map is an opaque read-only oracle; each
  oracle primitive the header calls becomes a function parameter:
  - `voxblox::Interpolator::getDistance(p, &d, false)` becomes
    `getDistance : Pos3 → Option ℚ` (`none` = lookup failed),
  - `Layer::getVoxelPtrByGlobalIndex` becomes
    `getVoxelPtrByGlobalIndex : GlobalIndex → Option ℚ` (the stored
    distance, `none` = null pointer),
  - `voxblox::utils::getSphereAroundPoint` becomes a parameter
    `sphere : Pos3 → List (BlockIndex × List VoxelIndex)` (the
    `HierarchicalIndexMap` produced for the fixed robot radius),
  - `si_->satisfiesBounds` becomes `bounds : Pos3 → Bool`,
  - the cblox `get_map_distance_` std::function becomes `Pos3 → ℚ`.
* The `last_valid` output pair `std::pair<base::State*, double>` is
  `Option π × ℚ`: `none` models a null state pointer (nothing written),
  `some _` models a non-null pointer whose pointee is overwritten.
* Machine doubles are modelled by ℚ; `size_t` loop counters by ℕ, with
  the C++ integer division `i / indices.size()` rendered as ℕ division.
* The `while` loop of `CbloxMotionValidator::checkMotion` is expressed
  in arclength coordinates: every position the loop manipulates has the
  form `start + t * ray_direction` with `ray_direction` a unit vector,
  so a position is represented by its signed arclength `t` from start,
  `(x - start).norm()` becomes `|t|`, and the map distance along the
  ray is abstracted as `d : ℚ → ℚ` with `d t = get_map_distance (start
  + t * ray_direction)`.  Loop termination is made explicit with a fuel
  parameter; `none` means the fuel ran out (the C++ loop always
  terminates, so theorems are stated over runs that return `some`).
-/

namespace OmplVoxblox

/-- A continuous 3D position (`Eigen::Vector3d`). -/
abbrev Pos3 := ℚ × ℚ × ℚ

/-- A global voxel index (`voxblox::GlobalIndex`). -/
abbrev GlobalIndex := ℤ × ℤ × ℤ

/-- A block index (`voxblox::BlockIndex`). -/
abbrev BlockIndex := ℤ × ℤ × ℤ

/-- A voxel index local to a block (`voxblox::VoxelIndex`). -/
abbrev VoxelIndex := ℤ × ℤ × ℤ

/-- `global_index.cast<double>() * voxel_size` (line 49 and line 252). -/
def scaleIndex (g : GlobalIndex) (voxel_size : ℚ) : Pos3 :=
  ((g.1 : ℚ) * voxel_size, (g.2.1 : ℚ) * voxel_size, (g.2.2 : ℚ) * voxel_size)

/-- `start.cast<voxblox::FloatingPoint>() / voxel_size` (lines 243-244). -/
def scaleDown (p : Pos3) (voxel_size : ℚ) : Pos3 :=
  (p.1 / voxel_size, p.2.1 / voxel_size, p.2.2 / voxel_size)

/-- The voxel containing a scaled point (`voxblox` grid convention:
componentwise floor). -/
def floorIndex (p : Pos3) : GlobalIndex := (⌊p.1⌋, ⌊p.2.1⌋, ⌊p.2.2⌋)

/-- The `last_valid` output slot `std::pair<base::State*, double>`:
the first component is `none` when the state pointer is null, `some x`
when it is non-null and currently holds `x`; the second component is
the `double` fraction. -/
abbrev LastValid (π : Type) := Option π × ℚ

/-- The write performed on a collision: `si_->copyState(last_valid.first, ...)`
guarded by `last_valid.first != nullptr`, followed by the unconditional
assignment `last_valid.second = frac`. -/
def writeLastValid {π : Type} (last_valid : LastValid π) (p : π) (frac : ℚ) :
    LastValid π :=
  (last_valid.1.map (fun _ => p), frac)

/-- `voxblox::kEpsilon` (1e-6), the observation-weight threshold. -/
def kEpsilon : ℚ := 1 / 1000000

namespace VoxbloxValidityChecker

/-- `VoxbloxValidityChecker::isValid` (lines 31-41): bounds check first,
then the negation of the virtual `checkCollisionWithRobot`, which is
passed in as `checkCollisionWithRobot` to model the virtual dispatch of
the checker family. -/
def isValid (bounds : Pos3 → Bool) (checkCollisionWithRobot : Pos3 → Bool)
    (robot_position : Pos3) : Bool :=
  if !(bounds robot_position) then false
  else !(checkCollisionWithRobot robot_position)

end VoxbloxValidityChecker

/-- A TSDF voxel: observation weight and stored distance. -/
structure TsdfVoxel where
  weight : ℚ
  distance : ℚ

/-- The oracle views of a `voxblox::Layer<TsdfVoxel>` used by the
occupancy-sphere-scan checker: whether `getBlockPtrByIndex` returns a
non-null block, whether a voxel index is valid inside a block, and the
voxel contents. -/
structure TsdfLayer where
  getBlockPtrByIndex : BlockIndex → Bool
  isValidVoxelIndex : BlockIndex → VoxelIndex → Bool
  getVoxelByVoxelIndex : BlockIndex → VoxelIndex → TsdfVoxel

namespace TsdfVoxbloxValidityChecker

/-- `TsdfVoxbloxValidityChecker::checkCollisionWithRobot` (lines 75-118).
`block_voxel_list` is the `HierarchicalIndexMap` returned by the external
`voxblox::utils::getSphereAroundPoint` for the query position and robot
radius.  The nested loops with early `return true` / `continue` are an
existential scan, rendered with `List.any`. -/
def checkCollisionWithRobot (treat_unknown_as_occupied : Bool)
    (layer : TsdfLayer)
    (block_voxel_list : List (BlockIndex × List VoxelIndex)) : Bool :=
  block_voxel_list.any (fun kv =>
    if !(layer.getBlockPtrByIndex kv.1) then false
    else kv.2.any (fun voxel_index =>
      -- the source binds `tsdf_voxel = getVoxelByVoxelIndex(...)` locally;
      -- it is inlined here
      if !(layer.isValidVoxelIndex kv.1 voxel_index) then
        treat_unknown_as_occupied
      else if (layer.getVoxelByVoxelIndex kv.1 voxel_index).weight < kEpsilon
        then treat_unknown_as_occupied
      else decide ((layer.getVoxelByVoxelIndex kv.1 voxel_index).distance ≤ 0)))

/-- `isValid` of the TSDF checker: the inherited `isValid` with the
sphere scan as the virtual collision check.  `sphere p` is the oracle's
block/voxel enumeration of the robot-radius ball around `p`. -/
def isValid (bounds : Pos3 → Bool) (treat_unknown_as_occupied : Bool)
    (layer : TsdfLayer)
    (sphere : Pos3 → List (BlockIndex × List VoxelIndex)) (p : Pos3) : Bool :=
  VoxbloxValidityChecker.isValid bounds
    (fun q => checkCollisionWithRobot treat_unknown_as_occupied layer (sphere q)) p

end TsdfVoxbloxValidityChecker

namespace EsdfVoxbloxValidityChecker

/-- `EsdfVoxbloxValidityChecker::checkCollisionWithRobot` (lines 133-145):
a non-interpolated distance lookup (`interpolate = false` is fixed in the
source); `none` models `getDistance` returning `false`. -/
def checkCollisionWithRobot (robot_radius : ℚ) (getDistance : Pos3 → Option ℚ)
    (robot_position : Pos3) : Bool :=
  match getDistance robot_position with
  | none => true
  | some distance => decide (robot_radius ≥ distance)

/-- `EsdfVoxbloxValidityChecker::checkCollisionWithRobotAtVoxel`
(lines 147-155): `none` models `getVoxelPtrByGlobalIndex` returning a
null pointer, `some d` a voxel storing distance `d`. -/
def checkCollisionWithRobotAtVoxel (robot_radius : ℚ)
    (getVoxelPtrByGlobalIndex : GlobalIndex → Option ℚ)
    (global_index : GlobalIndex) : Bool :=
  match getVoxelPtrByGlobalIndex global_index with
  | none => true
  | some distance => decide (robot_radius ≥ distance)

end EsdfVoxbloxValidityChecker

namespace CbloxValidityChecker

/-- `CbloxValidityChecker::checkCollisionWithRobot` (lines 192-197). -/
def checkCollisionWithRobot (robot_radius : ℚ) (get_map_distance : Pos3 → ℚ)
    (robot_position : Pos3) : Bool :=
  decide (robot_radius ≥ get_map_distance robot_position)

/-- `CbloxValidityChecker::remainingDistanceToCollision` (lines 199-201). -/
def remainingDistanceToCollision (robot_radius : ℚ)
    (get_map_distance : Pos3 → ℚ) (position : Pos3) : ℚ :=
  get_map_distance position - robot_radius

/-- `CbloxValidityChecker::isValid` (lines 178-189). -/
def isValid (bounds : Pos3 → Bool) (robot_radius : ℚ)
    (get_map_distance : Pos3 → ℚ) (robot_position : Pos3) : Bool :=
  if !(bounds robot_position) then false
  else !(checkCollisionWithRobot robot_radius get_map_distance robot_position)

end CbloxValidityChecker

namespace VoxbloxMotionValidator

/-- The `for (size_t i = 0; ...)` loop of
`VoxbloxMotionValidator::checkMotion` (lines 248-270).
`checkCollisionWithRobotAtVoxel` abstracts the virtual call on the held
checker; `N` is `indices.size()`; the remaining list and the counter `i`
are the loop state.  On a collision the position written is
`global_index.cast<double>() * voxel_size` and the fraction is the C++
expression `static_cast<double>(i / indices.size())`: the `size_t`
quotient `i / N`, cast to a real number afterwards. -/
def checkMotionLoop (checkCollisionWithRobotAtVoxel : GlobalIndex → Bool)
    (voxel_size : ℚ) (N : ℕ) :
    List GlobalIndex → ℕ → LastValid Pos3 → Bool × LastValid Pos3
  | [], _, last_valid => (true, last_valid)
  | global_index :: rest, i, last_valid =>
    if checkCollisionWithRobotAtVoxel global_index then
      (false, writeLastValid last_valid (scaleIndex global_index voxel_size)
        (((i / N : ℕ) : ℚ)))
    else
      checkMotionLoop checkCollisionWithRobotAtVoxel voxel_size N rest (i + 1)
        last_valid

/-- `VoxbloxMotionValidator::checkMotion` (lines 232-273), given the
index list produced by the external `voxblox::castRay` on the scaled
endpoints. -/
def checkMotion (checkCollisionWithRobotAtVoxel : GlobalIndex → Bool)
    (voxel_size : ℚ) (indices : List GlobalIndex)
    (last_valid : LastValid Pos3) : Bool × LastValid Pos3 :=
  checkMotionLoop checkCollisionWithRobotAtVoxel voxel_size indices.length
    indices 0 last_valid

/-- Modelled from the spec: `voxblox::castRay` is an external library
routine (not part of this repository); §4.2.a describes it as
enumerating, in order, every grid index the segment passes through from
start to goal.  For a degenerate segment with `start = goal` that is
exactly the single cell containing the (scaled) point. -/
def castRaySelf (start_scaled : Pos3) : List GlobalIndex :=
  [floorIndex start_scaled]

/-- `checkMotion(s1, s2, last_valid)` specialised to `s1 = s2 = A`:
lines 243-246 scale the endpoints by `1 / voxel_size` and pass them to
`castRay`, here the spec-modelled degenerate traversal `castRaySelf`. -/
def checkMotionSelf (checkCollisionWithRobotAtVoxel : GlobalIndex → Bool)
    (voxel_size : ℚ) (A : Pos3) (last_valid : LastValid Pos3) :
    Bool × LastValid Pos3 :=
  checkMotion checkCollisionWithRobotAtVoxel voxel_size
    (castRaySelf (scaleDown A voxel_size)) last_valid

end VoxbloxMotionValidator

namespace CbloxMotionValidator

/-- The `while` loop of `CbloxMotionValidator::checkMotion`
(lines 316-377) followed by the goal check (lines 379-396), in
arclength coordinates (see the file header): `position` is the
arclength of the current position, `d t` the map distance at arclength
`t`, `ray_length` the segment length, and `d ray_length` the distance
at the goal.  `step_size_temp` is the variable of line 313: it is
initialized to `step_size` and never reassigned in the source, and both
backstep branches (lines 327-328 and 354-355) subtract it.  `eps`
stands for the literal `1.0e-2` of line 352.  The result is `none` when
the fuel runs out, otherwise `some` of the returned boolean and the
`last_valid` pair. -/
def checkMotionLoop (robot_radius step_size eps ray_length : ℚ) (d : ℚ → ℚ) :
    ℕ → ℚ → ℚ → LastValid ℚ → Option (Bool × LastValid ℚ)
  | 0, _, _, _ => none
  | fuel + 1, position, step_size_temp, last_valid =>
    -- while ((position - start).norm() < ray_length)
    if |position| < ray_length then
      -- collision = checkCollisionWithRobot(position), i.e. r >= d(position);
      -- remaining_distance = remainingDistanceToCollision(position) = d(position) - r
      if robot_radius ≥ d position then
        some (false, writeLastValid last_valid (position - step_size_temp)
          (|position - step_size_temp| / ray_length))
      else if d position - robot_radius < step_size then
        if d position - robot_radius < eps then
          some (false, writeLastValid last_valid (position - step_size_temp)
            (|position - step_size_temp| / ray_length))
        else
          checkMotionLoop robot_radius step_size eps ray_length d fuel
            (position + (d position - robot_radius)) step_size_temp last_valid
      else
        checkMotionLoop robot_radius step_size eps ray_length d fuel
          (position + step_size) step_size_temp last_valid
    else
      -- additionally check goal position
      if robot_radius ≥ d ray_length then
        some (false, writeLastValid last_valid position
          (|position| / ray_length))
      else
        some (true, last_valid)

/-- `CbloxMotionValidator::checkMotion` (lines 303-400): `step_size` is
`voxel_size_ / 2` (line 312), `step_size_temp` starts equal to it
(line 313), the march starts at the start point (arclength 0), and the
near-zero clearance literal is `1.0e-2`. -/
def checkMotion (robot_radius voxel_size ray_length : ℚ) (d : ℚ → ℚ)
    (fuel : ℕ) (last_valid : LastValid ℚ) : Option (Bool × LastValid ℚ) :=
  checkMotionLoop robot_radius (voxel_size / 2) (1 / 100) ray_length d fuel 0
    (voxel_size / 2) last_valid

/-- `checkMotion(s1, s2, last_valid)` specialised to `s1 = s2 = A`:
the ray length is `0` and the only map query the call can make is the
goal check at `A` itself, so the distance function along the ray is the
constant `get_map_distance A`. -/
def checkMotionSelf (robot_radius voxel_size : ℚ)
    (get_map_distance : Pos3 → ℚ) (A : Pos3) (fuel : ℕ)
    (last_valid : LastValid ℚ) : Option (Bool × LastValid ℚ) :=
  checkMotion robot_radius voxel_size 0 (fun _ => get_map_distance A) fuel
    last_valid

end CbloxMotionValidator

/-! Concrete oracle instances used by counterexamples and witnesses.
They instantiate the opaque `get_map_distance_` std::function (any
caller-supplied map is admissible) along a concrete ray. -/

/-- A map distance (along the ray, in arclength coordinates) producing
a clearance-limited step followed by a collision: with `robot_radius =
1` and `step_size = 1/2`, the march visits `0`, `1/2` (clearance
`7/5 - 1 = 2/5`, so the next step is clearance-limited to `2/5`) and
`9/10`, where `d = 1/2 ≤ 1` is a collision. -/
def dStepThenHit : ℚ → ℚ :=
  fun t => if t = 1 / 2 then 7 / 5 else if t = 9 / 10 then 1 / 2 else 10

/-- A map distance refuting radius monotonicity of the adaptive
validator: with `robot_radius = 1` the march visits `0` and `1/2`
(collision, `d = 1 ≤ 1`); with `robot_radius = 2` the clearance at `0`
is `12/5 - 2 = 2/5 < 1/2`, so the march visits `0`, `2/5`, `9/10`,
`7/5`, never sampling `1/2`, and the goal at `1` is free. -/
def dNonMonotone : ℚ → ℚ :=
  fun t => if t = 0 then 12 / 5 else if t = 1 / 2 then 1 else 10

/-- The everywhere-colliding map: distance `0` at every point. -/
def dZero : ℚ → ℚ := fun _ => 0

/-- A TSDF layer with no allocated blocks at all: every
`getBlockPtrByIndex` is null. -/
def emptyTsdfLayer : TsdfLayer where
  getBlockPtrByIndex := fun _ => false
  isValidVoxelIndex := fun _ _ => true
  getVoxelByVoxelIndex := fun _ _ => ⟨0, 0⟩

/-- A TSDF layer with a single allocated block at the origin whose
voxels are all unobserved (weight `0 < kEpsilon`). -/
def unobservedTsdfLayer : TsdfLayer where
  getBlockPtrByIndex := fun b => decide (b = ((0 : ℤ), (0 : ℤ), (0 : ℤ)))
  isValidVoxelIndex := fun _ _ => true
  getVoxelByVoxelIndex := fun _ _ => ⟨0, 5⟩

/-! Helper lemmas. -/

/-- Out-of-bounds states are invalid whatever the collision check says. -/
lemma isValid_of_bounds_false (bounds c : Pos3 → Bool) (p : Pos3)
    (hb : bounds p = false) :
    VoxbloxValidityChecker.isValid bounds c p = false := by
  simp [VoxbloxValidityChecker.isValid, hb]

/-- In-bounds states are valid iff the collision check is negative. -/
lemma isValid_of_bounds_true (bounds c : Pos3 → Bool) (p : Pos3)
    (hb : bounds p = true) :
    VoxbloxValidityChecker.isValid bounds c p = !(c p) := by
  simp [VoxbloxValidityChecker.isValid, hb]

/-- A pointwise-stronger collision check can only shrink the valid set. -/
lemma isValid_mono (bounds c1 c2 : Pos3 → Bool) (p : Pos3)
    (h : c1 p = true → c2 p = true)
    (hv : VoxbloxValidityChecker.isValid bounds c1 p = false) :
    VoxbloxValidityChecker.isValid bounds c2 p = false := by
  cases hb : bounds p with
  | false => exact isValid_of_bounds_false bounds c2 p hb
  | true =>
    rw [isValid_of_bounds_true bounds c1 p hb] at hv
    rw [isValid_of_bounds_true bounds c2 p hb]
    cases hc : c1 p with
    | false => rw [hc] at hv; simp at hv
    | true => rw [h hc]; rfl

/-- The grid-traversal loop returns invalid iff some enumerated index
collides. -/
lemma voxbloxLoop_false_iff (c : GlobalIndex → Bool) (v : ℚ) (N : ℕ) :
    ∀ (l : List GlobalIndex) (i : ℕ) (lv : LastValid Pos3),
      (VoxbloxMotionValidator.checkMotionLoop c v N l i lv).1 = false ↔
        ∃ g ∈ l, c g = true := by
  intro l
  induction l with
  | nil =>
    intro i lv
    simp [VoxbloxMotionValidator.checkMotionLoop]
  | cons a rest ih =>
    intro i lv
    by_cases h : c a = true
    · simp [VoxbloxMotionValidator.checkMotionLoop, h]
    · simp only [VoxbloxMotionValidator.checkMotionLoop, h, if_false,
        Bool.false_eq_true, ih, List.mem_cons]
      constructor
      · rintro ⟨g, hg, hcg⟩
        exact ⟨g, Or.inr hg, hcg⟩
      · rintro ⟨g, hg | hg, hcg⟩
        · subst hg; exact absurd hcg h
        · exact ⟨g, hg, hcg⟩

/-- The grid-traversal loop either leaves `last_valid` alone and
returns valid, or returns invalid and writes a position (only through a
non-null pointer) and a fraction that do not depend on the incoming
pair. -/
lemma voxbloxLoop_cases (c : GlobalIndex → Bool) (v : ℚ) (N : ℕ) :
    ∀ (l : List GlobalIndex) (i : ℕ),
      (∀ lv, VoxbloxMotionValidator.checkMotionLoop c v N l i lv = (true, lv)) ∨
      (∃ p q, ∀ lv, VoxbloxMotionValidator.checkMotionLoop c v N l i lv =
        (false, (lv.1.map (fun _ => p), q))) := by
  intro l
  induction l with
  | nil => intro i; exact Or.inl (fun lv => rfl)
  | cons a rest ih =>
    intro i
    by_cases h : c a = true
    · refine Or.inr ⟨scaleIndex a v, ((i / N : ℕ) : ℚ), fun lv => ?_⟩
      simp [VoxbloxMotionValidator.checkMotionLoop, h, writeLastValid]
    · rcases ih (i + 1) with h1 | ⟨p, q, h2⟩
      · refine Or.inl (fun lv => ?_)
        simp [VoxbloxMotionValidator.checkMotionLoop, h, h1 lv]
      · refine Or.inr ⟨p, q, fun lv => ?_⟩
        simp [VoxbloxMotionValidator.checkMotionLoop, h, h2 lv]

/-- Exact output of the grid-traversal loop at the first colliding
entry: entry `i` of the remaining list collides, all earlier remaining
entries are free, and the counter starts at `i0`. -/
lemma voxbloxLoop_first (c : GlobalIndex → Bool) (v : ℚ) (N : ℕ) :
    ∀ (l : List GlobalIndex) (i i0 : ℕ) (g : GlobalIndex)
      (lv : LastValid Pos3),
      l.get? i = some g → c g = true →
      (l.take i).all (fun x => !(c x)) = true →
      VoxbloxMotionValidator.checkMotionLoop c v N l i0 lv =
        (false, writeLastValid lv (scaleIndex g v) (((i0 + i) / N : ℕ) : ℚ)) := by
  intro l
  induction l with
  | nil =>
    intro i i0 g lv hg
    simp at hg
  | cons a rest ih =>
    intro i i0 g lv hg hc hfree
    cases i with
    | zero =>
      simp at hg
      subst hg
      simp [VoxbloxMotionValidator.checkMotionLoop, hc]
    | succ i =>
      rw [List.take_succ_cons, List.all_cons] at hfree
      have ha : c a = false := by
        cases hca : c a with
        | false => rfl
        | true => rw [hca] at hfree; simp at hfree
      have hfree2 : (rest.take i).all (fun x => !(c x)) = true := by
        cases hall : (rest.take i).all (fun x => !(c x)) with
        | true => rfl
        | false => rw [hall] at hfree; simp at hfree
      have hg2 : rest.get? i = some g := by simpa using hg
      have := ih i (i0 + 1) g lv hg2 hc hfree2
      rw [VoxbloxMotionValidator.checkMotionLoop]
      rw [if_neg (by simp [ha])]
      rw [this]
      have harith : i0 + 1 + i = i0 + (i + 1) := by omega
      rw [harith]

/-- On an invalid grid-traversal result the recorded fraction is the
truncated integer ratio, which is `0` whenever the counter stays below
the total count. -/
lemma voxbloxLoop_frac_zero (c : GlobalIndex → Bool) (v : ℚ) (N : ℕ) :
    ∀ (l : List GlobalIndex) (i : ℕ) (lv lv1 : LastValid Pos3),
      i + l.length ≤ N →
      VoxbloxMotionValidator.checkMotionLoop c v N l i lv = (false, lv1) →
      lv1.2 = 0 := by
  intro l
  induction l with
  | nil =>
    intro i lv lv1 _ hrun
    rw [VoxbloxMotionValidator.checkMotionLoop] at hrun
    simp at hrun
  | cons a rest ih =>
    intro i lv lv1 hle hrun
    rw [VoxbloxMotionValidator.checkMotionLoop] at hrun
    by_cases h : c a = true
    · rw [if_pos h] at hrun
      have hi : i < N := by simp at hle; omega
      have heq : lv1 = writeLastValid lv (scaleIndex a v) (((i / N : ℕ) : ℚ)) := by
        injection hrun with h1 h2
        exact h2.symm
      rw [heq, writeLastValid, Nat.div_eq_of_lt hi]
      simp
    · rw [if_neg h] at hrun
      exact ih (i + 1) lv lv1 (by simp at hle ⊢; omega) hrun

/-- The adaptive-stepping loop either runs out of fuel, or returns
valid with `last_valid` untouched, or returns invalid after writing a
position (only through a non-null pointer) and a fraction that do not
depend on the incoming pair. -/
lemma cbloxLoop_cases (r step eps L : ℚ) (d : ℚ → ℚ) :
    ∀ (fuel : ℕ) (t st : ℚ),
      (∀ lv, CbloxMotionValidator.checkMotionLoop r step eps L d fuel t st lv =
        none) ∨
      (∀ lv, CbloxMotionValidator.checkMotionLoop r step eps L d fuel t st lv =
        some (true, lv)) ∨
      (∃ p q, ∀ lv,
        CbloxMotionValidator.checkMotionLoop r step eps L d fuel t st lv =
          some (false, (lv.1.map (fun _ => p), q))) := by
  intro fuel
  induction fuel with
  | zero => intro t st; exact Or.inl (fun lv => rfl)
  | succ n ih =>
    intro t st
    by_cases hlt : |t| < L
    · by_cases hcol : r ≥ d t
      · refine Or.inr (Or.inr ⟨t - st, |t - st| / L, fun lv => ?_⟩)
        rw [CbloxMotionValidator.checkMotionLoop, if_pos hlt, if_pos hcol]
        rfl
      · by_cases hrem : d t - r < step
        · by_cases heps : d t - r < eps
          · refine Or.inr (Or.inr ⟨t - st, |t - st| / L, fun lv => ?_⟩)
            rw [CbloxMotionValidator.checkMotionLoop, if_pos hlt,
              if_neg hcol, if_pos hrem, if_pos heps]
            rfl
          · rcases ih (t + (d t - r)) st with h | h | ⟨p, q, h⟩
            · refine Or.inl (fun lv => ?_)
              rw [CbloxMotionValidator.checkMotionLoop, if_pos hlt,
                if_neg hcol, if_pos hrem, if_neg heps, h lv]
            · refine Or.inr (Or.inl (fun lv => ?_))
              rw [CbloxMotionValidator.checkMotionLoop, if_pos hlt,
                if_neg hcol, if_pos hrem, if_neg heps, h lv]
            · refine Or.inr (Or.inr ⟨p, q, fun lv => ?_⟩)
              rw [CbloxMotionValidator.checkMotionLoop, if_pos hlt,
                if_neg hcol, if_pos hrem, if_neg heps, h lv]
        · rcases ih (t + step) st with h | h | ⟨p, q, h⟩
          · refine Or.inl (fun lv => ?_)
            rw [CbloxMotionValidator.checkMotionLoop, if_pos hlt,
              if_neg hcol, if_neg hrem, h lv]
          · refine Or.inr (Or.inl (fun lv => ?_))
            rw [CbloxMotionValidator.checkMotionLoop, if_pos hlt,
              if_neg hcol, if_neg hrem, h lv]
          · refine Or.inr (Or.inr ⟨p, q, fun lv => ?_⟩)
            rw [CbloxMotionValidator.checkMotionLoop, if_pos hlt,
              if_neg hcol, if_neg hrem, h lv]
    · by_cases hg : r ≥ d L
      · refine Or.inr (Or.inr ⟨t, |t| / L, fun lv => ?_⟩)
        rw [CbloxMotionValidator.checkMotionLoop, if_neg hlt, if_pos hg]
        rfl
      · refine Or.inr (Or.inl (fun lv => ?_))
        rw [CbloxMotionValidator.checkMotionLoop, if_neg hlt, if_neg hg]

/-- Every invalid result of the adaptive-stepping loop reports either a
collision / near-zero-clearance sample backstepped by `step_size_temp`,
or the goal check; in both cases the fraction is the distance from the
start of the reported position divided by the ray length. -/
lemma cbloxLoop_report (r step eps L : ℚ) (d : ℚ → ℚ) :
    ∀ (fuel : ℕ) (t st : ℚ) (lv lv1 : LastValid ℚ),
      CbloxMotionValidator.checkMotionLoop r step eps L d fuel t st lv =
        some (false, lv1) →
      (∃ tc, |tc| < L ∧
        (r ≥ d tc ∨ (¬ r ≥ d tc ∧ d tc - r < step ∧ d tc - r < eps)) ∧
        lv1 = writeLastValid lv (tc - st) (|tc - st| / L)) ∨
      (r ≥ d L ∧ ∃ tc, ¬ |tc| < L ∧
        lv1 = writeLastValid lv tc (|tc| / L)) := by
  intro fuel
  induction fuel with
  | zero => intro t st lv lv1 h; exact absurd h (by simp [CbloxMotionValidator.checkMotionLoop])
  | succ n ih =>
    intro t st lv lv1 h
    rw [CbloxMotionValidator.checkMotionLoop] at h
    by_cases hlt : |t| < L
    · rw [if_pos hlt] at h
      by_cases hcol : r ≥ d t
      · rw [if_pos hcol] at h
        refine Or.inl ⟨t, hlt, Or.inl hcol, ?_⟩
        injection h with h1
        injection h1 with h2 h3
        exact h3.symm
      · rw [if_neg hcol] at h
        by_cases hrem : d t - r < step
        · rw [if_pos hrem] at h
          by_cases heps : d t - r < eps
          · rw [if_pos heps] at h
            refine Or.inl ⟨t, hlt, Or.inr ⟨hcol, hrem, heps⟩, ?_⟩
            injection h with h1
            injection h1 with h2 h3
            exact h3.symm
          · rw [if_neg heps] at h
            exact ih (t + (d t - r)) st lv lv1 h
        · rw [if_neg hrem] at h
          exact ih (t + step) st lv lv1 h
    · rw [if_neg hlt] at h
      by_cases hg : r ≥ d L
      · rw [if_pos hg] at h
        refine Or.inr ⟨hg, t, hlt, ?_⟩
        injection h with h1
        injection h1 with h2 h3
        exact h3.symm
      · rw [if_neg hg] at h
        injection h with h1
        injection h1 with h2 h3
        simp at h2

/-- Every fraction the adaptive-stepping loop writes is nonnegative
when the ray length is. -/
lemma cbloxLoop_frac_nonneg (r step eps L : ℚ) (d : ℚ → ℚ) (hL : 0 ≤ L)
    (fuel : ℕ) (t st : ℚ) (lv lv1 : LastValid ℚ)
    (h : CbloxMotionValidator.checkMotionLoop r step eps L d fuel t st lv =
      some (false, lv1)) :
    0 ≤ lv1.2 := by
  rcases cbloxLoop_report r step eps L d fuel t st lv lv1 h with
    ⟨tc, _, _, heq⟩ | ⟨_, tc, _, heq⟩
  · rw [heq]
    exact div_nonneg (abs_nonneg _) hL
  · rw [heq]
    exact div_nonneg (abs_nonneg _) hL

/-- One unfolding of the adaptive-stepping loop. -/
lemma cbloxLoop_succ (r step eps L : ℚ) (d : ℚ → ℚ) (fuel : ℕ) (t st : ℚ)
    (lv : LastValid ℚ) :
    CbloxMotionValidator.checkMotionLoop r step eps L d (fuel + 1) t st lv =
      if |t| < L then
        if r ≥ d t then
          some (false, writeLastValid lv (t - st) (|t - st| / L))
        else if d t - r < step then
          if d t - r < eps then
            some (false, writeLastValid lv (t - st) (|t - st| / L))
          else
            CbloxMotionValidator.checkMotionLoop r step eps L d fuel
              (t + (d t - r)) st lv
        else
          CbloxMotionValidator.checkMotionLoop r step eps L d fuel
            (t + step) st lv
      else
        if r ≥ d L then
          some (false, writeLastValid lv t (|t| / L))
        else
          some (true, lv) := rfl

/-- Concrete run: on a segment of length `1/4` with an
everywhere-colliding map the adaptive validator collides at the start
and reports fraction `2`. -/
lemma dZero_quarter_run :
    CbloxMotionValidator.checkMotion 1 1 (1 / 4) dZero 5 (none, 0) =
      some (false, (none, 2)) := by
  rw [CbloxMotionValidator.checkMotion]
  rw [show (5 : ℕ) = 4 + 1 from rfl, cbloxLoop_succ]
  rw [if_pos (by norm_num), if_pos (by norm_num [dZero])]
  norm_num [writeLastValid, abs_of_pos]

/-- Concrete run: on a unit segment with an everywhere-colliding map
the adaptive validator collides at the start and reports fraction
`1/2`. -/
lemma dZero_unit_run :
    CbloxMotionValidator.checkMotion 1 1 1 dZero 5 (none, 5) =
      some (false, (none, 1 / 2)) := by
  rw [CbloxMotionValidator.checkMotion]
  rw [show (5 : ℕ) = 4 + 1 from rfl, cbloxLoop_succ]
  rw [if_pos (by norm_num), if_pos (by norm_num [dZero])]
  norm_num [writeLastValid, abs_of_pos]

/-- Concrete run of the adaptive validator on `dStepThenHit`: the march
visits `0`, `1/2` (clearance-limited step `2/5`), collides at `9/10`,
and reports last-valid `9/10 - 1/2 = 2/5` with fraction
`(2/5) / 2 = 1/5`. -/
lemma dStepThenHit_run :
    CbloxMotionValidator.checkMotion 1 1 2 dStepThenHit 10 (some 0, 0) =
      some (false, (some (2 / 5), 1 / 5)) := by
  rw [CbloxMotionValidator.checkMotion]
  rw [show (10 : ℕ) = 9 + 1 from rfl, cbloxLoop_succ]
  rw [if_pos (by norm_num), if_neg (by norm_num [dStepThenHit]),
    if_neg (by norm_num [dStepThenHit])]
  rw [show (0 : ℚ) + (1 : ℚ) / 2 = 1 / 2 by norm_num]
  rw [show (9 : ℕ) = 8 + 1 from rfl, cbloxLoop_succ]
  rw [if_pos (by norm_num [abs_of_pos]), if_neg (by norm_num [dStepThenHit]),
    if_pos (by norm_num [dStepThenHit]), if_neg (by norm_num [dStepThenHit])]
  rw [show (1 : ℚ) / 2 + (dStepThenHit (1 / 2) - 1) = 9 / 10 by
    norm_num [dStepThenHit]]
  rw [show (8 : ℕ) = 7 + 1 from rfl, cbloxLoop_succ]
  rw [if_pos (by norm_num [abs_of_pos]), if_pos (by norm_num [dStepThenHit])]
  norm_num [writeLastValid, abs_of_pos]

/-! Claim theorems. -/

/-- C1: for the grid-traversal motion validator, if the ray traversal
enumerates `N` indices and the first colliding index `g` sits at
enumeration position `i` (entry `i` collides, all entries before it are
free), the call returns invalid, the reported fraction is `i / N`
computed with integer (size_t) division and cast to a real number only
afterwards, and the failure position — written only when a position
output slot is requested — is `g` converted back to metric coordinates
by multiplying by the voxel size. -/
theorem voxblox_checkMotion_first_collision
    (c : GlobalIndex → Bool) (v : ℚ) (indices : List GlobalIndex)
    (lv : LastValid Pos3) (i : ℕ) (g : GlobalIndex)
    (hg : indices.get? i = some g) (hc : c g = true)
    (hfree : (indices.take i).all (fun x => !(c x)) = true) :
    (VoxbloxMotionValidator.checkMotion c v indices lv).1 = false ∧
    (VoxbloxMotionValidator.checkMotion c v indices lv).2.2 =
      ((i / indices.length : ℕ) : ℚ) ∧
    (VoxbloxMotionValidator.checkMotion c v indices lv).2.1 =
      lv.1.map (fun _ => scaleIndex g v) := by
  have h := voxbloxLoop_first c v indices.length indices i 0 g lv hg hc hfree
  rw [Nat.zero_add] at h
  unfold VoxbloxMotionValidator.checkMotion
  rw [h]
  exact ⟨rfl, rfl, rfl⟩

/-- Witness for C1: three enumerated indices, the third one (position
`i = 2`) collides; the reported fraction is the integer quotient
`2 / 3 = 0` and the written position is the colliding index scaled by
the voxel size. -/
theorem voxblox_checkMotion_first_collision_witness :
    (VoxbloxMotionValidator.checkMotion
      (fun g => decide (g = ((2 : ℤ), (0 : ℤ), (0 : ℤ)))) 1
      [(0, 0, 0), (1, 0, 0), (2, 0, 0)]
      (some ((0 : ℚ), (0 : ℚ), (0 : ℚ)), 7)).1 = false ∧
    (VoxbloxMotionValidator.checkMotion
      (fun g => decide (g = ((2 : ℤ), (0 : ℤ), (0 : ℤ)))) 1
      [(0, 0, 0), (1, 0, 0), (2, 0, 0)]
      (some ((0 : ℚ), (0 : ℚ), (0 : ℚ)), 7)).2.2 =
      ((2 / 3 : ℕ) : ℚ) ∧
    (VoxbloxMotionValidator.checkMotion
      (fun g => decide (g = ((2 : ℤ), (0 : ℤ), (0 : ℤ)))) 1
      [(0, 0, 0), (1, 0, 0), (2, 0, 0)]
      (some ((0 : ℚ), (0 : ℚ), (0 : ℚ)), 7)).2.1 =
      (some ((0 : ℚ), (0 : ℚ), (0 : ℚ)) : Option Pos3).map
        (fun _ => scaleIndex ((2 : ℤ), (0 : ℤ), (0 : ℤ)) 1) :=
  voxblox_checkMotion_first_collision _ 1 _ _ 2 ((2 : ℤ), (0 : ℤ), (0 : ℤ))
    (by decide) (by decide) (by decide)

/-- C2 counterexample: on a segment of length `1/4` with voxel size `1`
(nominal step `1/2`) and an everywhere-colliding map, the adaptive
validator collides at the start, backsteps by the nominal step to
arclength `-1/2`, and reports fraction `(1/2) / (1/4) = 2`, outside
`[0, 1]`. -/
theorem motion_fraction_counterexample :
    CbloxMotionValidator.checkMotion 1 1 (1 / 4) dZero 5 (none, 0) =
      some (false, (none, 2)) ∧ ¬((2 : ℚ) ≤ 1) :=
  ⟨dZero_quarter_run, by norm_num⟩

/-- C2 corrected: on an invalid motion the grid-traversal validator's
fraction lies in `[0, 1]` (the truncated integer ratio is in fact `0`),
while the adaptive-stepping validator's fraction is only guaranteed
nonnegative (for a nonnegative ray length) and can exceed `1`. -/
theorem motion_fraction_bounds :
    (∀ (c : GlobalIndex → Bool) (v : ℚ) (indices : List GlobalIndex)
       (lv lv1 : LastValid Pos3),
       VoxbloxMotionValidator.checkMotion c v indices lv = (false, lv1) →
       0 ≤ lv1.2 ∧ lv1.2 ≤ 1) ∧
    (∀ (r v L : ℚ) (d : ℚ → ℚ) (fuel : ℕ) (lv lv1 : LastValid ℚ), 0 ≤ L →
       CbloxMotionValidator.checkMotion r v L d fuel lv = some (false, lv1) →
       0 ≤ lv1.2) := by
  constructor
  · intro c v indices lv lv1 h
    have h0 := voxbloxLoop_frac_zero c v indices.length indices 0 lv lv1
      (by omega) h
    rw [h0]
    exact ⟨le_refl 0, by norm_num⟩
  · intro r v L d fuel lv lv1 hL h
    exact cbloxLoop_frac_nonneg r (v / 2) (1 / 100) L d hL fuel 0 (v / 2)
      lv lv1 h

/-- Witness for C2 (corrected): a colliding one-index grid traversal
reports fraction `0 ∈ [0, 1]`; an adaptive run colliding at the start
of a unit segment reports the nonnegative fraction `1/2`. -/
theorem motion_fraction_bounds_witness :
    (0 ≤ (VoxbloxMotionValidator.checkMotion (fun _ => true) 1
        [((0 : ℤ), (0 : ℤ), (0 : ℤ))] (none, 5)).2.2 ∧
      (VoxbloxMotionValidator.checkMotion (fun _ => true) 1
        [((0 : ℤ), (0 : ℤ), (0 : ℤ))] (none, 5)).2.2 ≤ 1) ∧
    0 ≤ ((none : Option ℚ), (1 / 2 : ℚ)).2 :=
  ⟨motion_fraction_bounds.1 (fun _ => true) 1 [((0 : ℤ), (0 : ℤ), (0 : ℤ))]
      (none, 5) _ (by decide),
    motion_fraction_bounds.2 1 1 1 dZero 5 (none, 5) (none, 1 / 2)
      (by norm_num) dZero_unit_run⟩

/-- C3 counterexample: with `robot_radius = 1`, voxel size `1` (nominal
step `1/2`), segment length `2` and the map `dStepThenHit`, the march
visits `0`, then `1/2` where the clearance is `2/5 < 1/2`, so the most
recent step actually taken is the clearance-limited `2/5`, reaching
`9/10` where it collides.  The claim predicts a backstep by the most
recent step, last-valid `9/10 - 2/5 = 1/2` and fraction
`(1/2)/2 = 1/4`; the code backsteps by the never-updated
`step_size_temp = 1/2`, reporting last-valid `2/5` and fraction `1/5`. -/
theorem cblox_backstep_counterexample :
    CbloxMotionValidator.checkMotion 1 1 2 dStepThenHit 10 (some 0, 0) =
      some (false, (some (2 / 5), 1 / 5)) ∧
    dStepThenHit (1 / 2) - 1 = 2 / 5 ∧
    dStepThenHit (1 / 2) - 1 < 1 / 2 ∧
    (1 / 2 : ℚ) + (2 / 5) = 9 / 10 ∧
    ¬((2 / 5 : ℚ) = 9 / 10 - 2 / 5) ∧
    ¬((1 / 5 : ℚ) = |(9 / 10 : ℚ) - 2 / 5| / 2) :=
  ⟨dStepThenHit_run, by norm_num [dStepThenHit], by norm_num [dStepThenHit],
    by norm_num, by norm_num,
    by rw [show |(9 / 10 : ℚ) - 2 / 5| = 1 / 2 by norm_num [abs_of_pos]]
       norm_num⟩

/-- C3 corrected: when a sampled position is in collision or its
clearance is below the near-zero threshold, the reported last-valid
position is the current position stepped backward by the NOMINAL step
size `voxel_size / 2` — the source variable `step_size_temp` is never
updated, so the backstep is not the most recent (possibly
clearance-limited) step actually taken — and the reported fraction is
the distance from start to that backstepped position divided by the
total length.  The goal-check branch instead reports the current
position unstepped. -/
theorem cblox_backstep_reports (r v L : ℚ) (d : ℚ → ℚ) (fuel : ℕ)
    (lv lv1 : LastValid ℚ)
    (h : CbloxMotionValidator.checkMotion r v L d fuel lv =
      some (false, lv1)) :
    (∃ tc, |tc| < L ∧
      (r ≥ d tc ∨ (¬ r ≥ d tc ∧ d tc - r < v / 2 ∧ d tc - r < 1 / 100)) ∧
      lv1.1 = lv.1.map (fun _ => tc - v / 2) ∧ lv1.2 = |tc - v / 2| / L) ∨
    (r ≥ d L ∧ ∃ tc, ¬ |tc| < L ∧
      lv1.1 = lv.1.map (fun _ => tc) ∧ lv1.2 = |tc| / L) := by
  rcases cbloxLoop_report r (v / 2) (1 / 100) L d fuel 0 (v / 2) lv lv1 h with
    ⟨tc, h1, h2, h3⟩ | ⟨hg, tc, h1, h3⟩
  · exact Or.inl ⟨tc, h1, h2, by rw [h3]; rfl, by rw [h3]; rfl⟩
  · exact Or.inr ⟨hg, tc, h1, by rw [h3]; rfl, by rw [h3]; rfl⟩

/-- Witness for C3 (corrected): the `dStepThenHit` run instantiates the
collision branch with the nominal backstep `1/2`. -/
theorem cblox_backstep_reports_witness :
    (∃ tc, |tc| < 2 ∧
      ((1 : ℚ) ≥ dStepThenHit tc ∨
        (¬ (1 : ℚ) ≥ dStepThenHit tc ∧ dStepThenHit tc - 1 < 1 / 2 ∧
          dStepThenHit tc - 1 < 1 / 100)) ∧
      (some (2 / 5) : Option ℚ) = (some (0 : ℚ)).map (fun _ => tc - 1 / 2) ∧
      (1 / 5 : ℚ) = |tc - 1 / 2| / 2) ∨
    ((1 : ℚ) ≥ dStepThenHit 2 ∧ ∃ tc, ¬ |tc| < 2 ∧
      (some (2 / 5) : Option ℚ) = (some (0 : ℚ)).map (fun _ => tc) ∧
      (1 / 5 : ℚ) = |tc| / 2) :=
  cblox_backstep_reports 1 1 2 dStepThenHit 10 (some 0, 0)
    (some (2 / 5), 1 / 5) dStepThenHit_run

/-- C10: on a valid motion neither validator touches the `last_valid`
output pair; on an invalid motion the position slot is written exactly
when the state pointer is non-null and the fraction slot is always
written; the written values do not depend on the incoming pair.  (For
the adaptive validator the fuel-exhaustion case of the model is listed
separately; the C++ loop always terminates.) -/
theorem checkMotion_frame :
    (∀ (c : GlobalIndex → Bool) (v : ℚ) (indices : List GlobalIndex),
      (∀ lv, VoxbloxMotionValidator.checkMotion c v indices lv = (true, lv)) ∨
      (∃ p q, ∀ lv, VoxbloxMotionValidator.checkMotion c v indices lv =
        (false, (lv.1.map (fun _ => p), q)))) ∧
    (∀ (r v L : ℚ) (d : ℚ → ℚ) (fuel : ℕ),
      (∀ lv, CbloxMotionValidator.checkMotion r v L d fuel lv = none) ∨
      (∀ lv, CbloxMotionValidator.checkMotion r v L d fuel lv =
        some (true, lv)) ∨
      (∃ p q, ∀ lv, CbloxMotionValidator.checkMotion r v L d fuel lv =
        some (false, (lv.1.map (fun _ => p), q)))) :=
  ⟨fun c v indices => voxbloxLoop_cases c v indices.length indices 0,
    fun r v L d fuel => cbloxLoop_cases r (v / 2) (1 / 100) L d fuel 0 (v / 2)⟩

/-- C5: for the signed-distance-threshold checker, a failed distance
lookup is a collision (fail-closed), and a successful lookup is a
collision exactly when `robot_radius ≥ distance`; the comparison is
non-strict, so a robot exactly tangent to the surface
(`distance = robot_radius`) counts as colliding. -/
theorem esdf_checkCollision_threshold (robot_radius : ℚ)
    (getDistance : Pos3 → Option ℚ) (p : Pos3) :
    (getDistance p = none →
      EsdfVoxbloxValidityChecker.checkCollisionWithRobot robot_radius
        getDistance p = true) ∧
    (∀ distance, getDistance p = some distance →
      (EsdfVoxbloxValidityChecker.checkCollisionWithRobot robot_radius
        getDistance p = true ↔ robot_radius ≥ distance)) ∧
    (∀ distance, getDistance p = some distance → distance = robot_radius →
      EsdfVoxbloxValidityChecker.checkCollisionWithRobot robot_radius
        getDistance p = true) := by
  refine ⟨fun h => ?_, fun distance h => ?_, fun distance h he => ?_⟩
  · simp [EsdfVoxbloxValidityChecker.checkCollisionWithRobot, h]
  · simp [EsdfVoxbloxValidityChecker.checkCollisionWithRobot, h]
  · subst he
    simp [EsdfVoxbloxValidityChecker.checkCollisionWithRobot, h]

/-- Witness for C5: a failed lookup collides, and a lookup returning
exactly the robot radius collides (tangency). -/
theorem esdf_checkCollision_threshold_witness :
    EsdfVoxbloxValidityChecker.checkCollisionWithRobot 3 (fun _ => none)
      ((0 : ℚ), (0 : ℚ), (0 : ℚ)) = true ∧
    EsdfVoxbloxValidityChecker.checkCollisionWithRobot 3 (fun _ => some 3)
      ((0 : ℚ), (0 : ℚ), (0 : ℚ)) = true :=
  ⟨(esdf_checkCollision_threshold 3 (fun _ => none)
      ((0 : ℚ), (0 : ℚ), (0 : ℚ))).1 rfl,
    (esdf_checkCollision_threshold 3 (fun _ => some 3)
      ((0 : ℚ), (0 : ℚ), (0 : ℚ))).2.2 3 rfl rfl⟩

/-- C8: when the point lookup of the signed-distance field at
`g * voxel_size` (non-interpolated, as fixed in the source) and the
voxel lookup at `g` report the same result, the grid-index-native check
returns the same verdict as the position-based check evaluated at
`g * voxel_size` — both apply the identical fail-closed and
`robot_radius ≥ distance` policy to their respective lookups. -/
theorem esdf_atVoxel_consistent (robot_radius : ℚ)
    (getDistance : Pos3 → Option ℚ)
    (getVoxelPtrByGlobalIndex : GlobalIndex → Option ℚ) (voxel_size : ℚ)
    (g : GlobalIndex)
    (hcoh : getDistance (scaleIndex g voxel_size) =
      getVoxelPtrByGlobalIndex g) :
    EsdfVoxbloxValidityChecker.checkCollisionWithRobotAtVoxel robot_radius
      getVoxelPtrByGlobalIndex g =
    EsdfVoxbloxValidityChecker.checkCollisionWithRobot robot_radius
      getDistance (scaleIndex g voxel_size) := by
  rw [EsdfVoxbloxValidityChecker.checkCollisionWithRobotAtVoxel,
    EsdfVoxbloxValidityChecker.checkCollisionWithRobot, hcoh]

/-- Witness for C8: coherent constant oracles give equal verdicts. -/
theorem esdf_atVoxel_consistent_witness :
    EsdfVoxbloxValidityChecker.checkCollisionWithRobotAtVoxel 2
      (fun _ => some 1) ((0 : ℤ), (0 : ℤ), (0 : ℤ)) =
    EsdfVoxbloxValidityChecker.checkCollisionWithRobot 2 (fun _ => some 1)
      (scaleIndex ((0 : ℤ), (0 : ℤ), (0 : ℤ)) 1) :=
  esdf_atVoxel_consistent 2 (fun _ => some 1) (fun _ => some 1) 1
    ((0 : ℤ), (0 : ℤ), (0 : ℤ)) rfl

/-- C9: for both checker families, an out-of-bounds state is invalid
with a result that does not depend on the collision check at all (the
check is never consulted), and an in-bounds state is valid exactly when
the collision check is negative. -/
theorem isValid_bounds_fail_closed :
    (∀ (bounds c1 c2 : Pos3 → Bool) (p : Pos3), bounds p = false →
      VoxbloxValidityChecker.isValid bounds c1 p = false ∧
      VoxbloxValidityChecker.isValid bounds c1 p =
        VoxbloxValidityChecker.isValid bounds c2 p) ∧
    (∀ (bounds c : Pos3 → Bool) (p : Pos3), bounds p = true →
      VoxbloxValidityChecker.isValid bounds c p = !(c p)) ∧
    (∀ (bounds : Pos3 → Bool) (r : ℚ) (g1 g2 : Pos3 → ℚ) (p : Pos3),
      bounds p = false →
      CbloxValidityChecker.isValid bounds r g1 p = false ∧
      CbloxValidityChecker.isValid bounds r g1 p =
        CbloxValidityChecker.isValid bounds r g2 p) ∧
    (∀ (bounds : Pos3 → Bool) (r : ℚ) (gmd : Pos3 → ℚ) (p : Pos3),
      bounds p = true →
      CbloxValidityChecker.isValid bounds r gmd p =
        !(CbloxValidityChecker.checkCollisionWithRobot r gmd p)) := by
  refine ⟨fun bounds c1 c2 p hb => ⟨?_, ?_⟩, fun bounds c p hb => ?_,
    fun bounds r g1 g2 p hb => ⟨?_, ?_⟩, fun bounds r gmd p hb => ?_⟩ <;>
    simp [VoxbloxValidityChecker.isValid, CbloxValidityChecker.isValid, hb]

/-- Witness for C9: an out-of-bounds point is invalid under two
different collision checks, and an in-bounds point gets the negation of
its collision check. -/
theorem isValid_bounds_fail_closed_witness :
    (VoxbloxValidityChecker.isValid (fun _ => false) (fun _ => false)
        ((0 : ℚ), (0 : ℚ), (0 : ℚ)) = false ∧
      VoxbloxValidityChecker.isValid (fun _ => false) (fun _ => false)
        ((0 : ℚ), (0 : ℚ), (0 : ℚ)) =
        VoxbloxValidityChecker.isValid (fun _ => false) (fun _ => true)
          ((0 : ℚ), (0 : ℚ), (0 : ℚ))) ∧
    CbloxValidityChecker.isValid (fun _ => true) 1 (fun _ => 2)
      ((0 : ℚ), (0 : ℚ), (0 : ℚ)) =
      !(CbloxValidityChecker.checkCollisionWithRobot 1 (fun _ => 2)
        ((0 : ℚ), (0 : ℚ), (0 : ℚ))) :=
  ⟨isValid_bounds_fail_closed.1 (fun _ => false) (fun _ => false)
      (fun _ => true) ((0 : ℚ), (0 : ℚ), (0 : ℚ)) rfl,
    isValid_bounds_fail_closed.2.2.2 (fun _ => true) 1 (fun _ => 2)
      ((0 : ℚ), (0 : ℚ), (0 : ℚ)) rfl⟩

/-- C6 counterexample: `checkMotion(A, A)` can differ from
`isValid(A)`.  First failure mode: neither `checkMotion` performs a
bounds check, so an out-of-bounds `A` in free space gives
`checkMotion(A, A) = true` while `isValid(A) = false` (here for the
adaptive validator).  Second failure mode: the grid validator consults
the voxel-native check at `A`'s containing cell, so an in-bounds `A`
whose point check collides while its cell's voxel check is free gives
`checkMotion(A, A) = true` while `isValid(A) = false`. -/
theorem checkMotion_self_counterexample :
    (CbloxMotionValidator.checkMotionSelf 1 1 (fun _ => 100)
      ((0 : ℚ), (0 : ℚ), (0 : ℚ)) 5 (none, 0)).map Prod.fst = some true ∧
    CbloxValidityChecker.isValid (fun _ => false) 1 (fun _ => 100)
      ((0 : ℚ), (0 : ℚ), (0 : ℚ)) = false ∧
    (VoxbloxMotionValidator.checkMotionSelf (fun _ => false) 1
      ((1 / 2 : ℚ), (0 : ℚ), (0 : ℚ)) (none, 0)).1 = true ∧
    VoxbloxValidityChecker.isValid (fun _ => true) (fun _ => true)
      ((1 / 2 : ℚ), (0 : ℚ), (0 : ℚ)) = false := by
  refine ⟨?_, rfl, rfl, rfl⟩
  rw [CbloxMotionValidator.checkMotionSelf, CbloxMotionValidator.checkMotion]
  rw [show (5 : ℕ) = 4 + 1 from rfl, cbloxLoop_succ]
  rw [if_neg (by norm_num), if_neg (by norm_num)]
  rfl

/-- C6 corrected: `checkMotion(A, A)` returns the same boolean as
`isValid(A)` provided `A` is within the planner bounds (the motion
validators perform no bounds check), and — for the grid-traversal
validator — provided additionally the voxel-native collision verdict at
`A`'s containing cell agrees with the point verdict at `A` (the
degenerate traversal is the spec-modelled single containing cell). -/
theorem checkMotion_self_isValid :
    (∀ (bounds : Pos3 → Bool) (robot_radius voxel_size : ℚ)
       (gmd : Pos3 → ℚ) (A : Pos3) (fuel : ℕ) (lv : LastValid ℚ)
       (b : Bool) (lv1 : LastValid ℚ),
       bounds A = true →
       CbloxMotionValidator.checkMotionSelf robot_radius voxel_size gmd A
         fuel lv = some (b, lv1) →
       b = CbloxValidityChecker.isValid bounds robot_radius gmd A) ∧
    (∀ (bounds : Pos3 → Bool) (collide : GlobalIndex → Bool)
       (checkColl : Pos3 → Bool) (voxel_size : ℚ) (A : Pos3)
       (lv : LastValid Pos3),
       bounds A = true →
       collide (floorIndex (scaleDown A voxel_size)) = checkColl A →
       (VoxbloxMotionValidator.checkMotionSelf collide voxel_size A lv).1 =
         VoxbloxValidityChecker.isValid bounds checkColl A) := by
  constructor
  · intro bounds robot_radius voxel_size gmd A fuel lv b lv1 hb h
    cases fuel with
    | zero =>
      rw [CbloxMotionValidator.checkMotionSelf,
        CbloxMotionValidator.checkMotion] at h
      exact absurd h (by simp [CbloxMotionValidator.checkMotionLoop])
    | succ n =>
      rw [CbloxMotionValidator.checkMotionSelf,
        CbloxMotionValidator.checkMotion, cbloxLoop_succ] at h
      rw [if_neg (by simp)] at h
      rw [CbloxValidityChecker.isValid, hb,
        CbloxValidityChecker.checkCollisionWithRobot]
      by_cases hcol : robot_radius ≥ gmd A
      · rw [if_pos hcol] at h
        injection h with h1
        injection h1 with h2 h3
        rw [← h2]
        simp [hcol]
      · rw [if_neg hcol] at h
        injection h with h1
        injection h1 with h2 h3
        rw [← h2]
        simp [hcol]
  · intro bounds collide checkColl voxel_size A lv hb hagree
    rw [VoxbloxMotionValidator.checkMotionSelf,
      VoxbloxMotionValidator.checkMotion, VoxbloxMotionValidator.castRaySelf]
    rw [isValid_of_bounds_true bounds checkColl A hb, ← hagree]
    cases hc : collide (floorIndex (scaleDown A voxel_size)) with
    | false =>
      rw [VoxbloxMotionValidator.checkMotionLoop, if_neg (by simp [hc])]
      rfl
    | true =>
      rw [VoxbloxMotionValidator.checkMotionLoop, if_pos hc]
      rfl

/-- Witness for C6 (corrected): an in-bounds point whose distance `1/2`
is below the radius `1` makes both the degenerate adaptive motion and
the state check invalid; and with agreeing voxel/point verdicts the
degenerate grid motion equals the state check. -/
theorem checkMotion_self_isValid_witness :
    ((false : Bool) = CbloxValidityChecker.isValid (fun _ => true) 1
      (fun _ => 1 / 2) ((0 : ℚ), (0 : ℚ), (0 : ℚ))) ∧
    ((VoxbloxMotionValidator.checkMotionSelf (fun _ => true) 1
      ((0 : ℚ), (0 : ℚ), (0 : ℚ)) (none, 0)).1 =
      VoxbloxValidityChecker.isValid (fun _ => true) (fun _ => true)
        ((0 : ℚ), (0 : ℚ), (0 : ℚ))) :=
  ⟨checkMotion_self_isValid.1 (fun _ => true) 1 1 (fun _ => 1 / 2)
      ((0 : ℚ), (0 : ℚ), (0 : ℚ)) 1 (none, 0) false (none, 0) rfl
      (by rw [CbloxMotionValidator.checkMotionSelf,
            CbloxMotionValidator.checkMotion,
            show (1 : ℕ) = 0 + 1 from rfl, cbloxLoop_succ]
          rw [if_neg (by norm_num), if_pos (by norm_num)]
          norm_num [writeLastValid]),
    checkMotion_self_isValid.2 (fun _ => true) (fun _ => true)
      (fun _ => true) 1 ((0 : ℚ), (0 : ℚ), (0 : ℚ)) (none, 0) rfl rfl⟩

/-- C4 counterexample: a robot-radius sphere lying wholly in
UNALLOCATED — hence wholly unobserved — space.  The sphere enumeration
names a voxel whose block `getBlockPtrByIndex` reports missing, the
checker's null-block guard (lines 89-91) skips it unconditionally, and
`isValid` returns true under BOTH settings of
`treat_unknown_as_occupied`, contradicting the claimed opposite,
flag-determined outputs. -/
theorem tsdf_unknown_policy_counterexample :
    TsdfVoxbloxValidityChecker.isValid (fun _ => true) true emptyTsdfLayer
      (fun _ => [(((0 : ℤ), (0 : ℤ), (0 : ℤ)),
        [((0 : ℤ), (0 : ℤ), (0 : ℤ))])])
      ((0 : ℚ), (0 : ℚ), (0 : ℚ)) = true ∧
    TsdfVoxbloxValidityChecker.isValid (fun _ => true) false emptyTsdfLayer
      (fun _ => [(((0 : ℤ), (0 : ℤ), (0 : ℤ)),
        [((0 : ℤ), (0 : ℤ), (0 : ℤ))])])
      ((0 : ℚ), (0 : ℚ), (0 : ℚ)) = true :=
  ⟨rfl, rfl⟩

/-- C4 corrected: for an in-bounds query point whose robot-radius
sphere is wholly unobserved, the policy flag determines opposite
outputs PROVIDED the sphere enumeration visits at least one voxel of an
allocated block: every visited voxel being unobserved (invalid index in
its block, or observation weight below `kEpsilon`), `isValid` is true
with `treat_unknown_as_occupied = false` and false with the flag set.
(When no allocated block is visited, both settings yield true, per the
counterexample.) -/
theorem tsdf_unknown_policy (bounds : Pos3 → Bool) (layer : TsdfLayer)
    (sphere : Pos3 → List (BlockIndex × List VoxelIndex)) (p : Pos3)
    (hb : bounds p = true)
    (hne : ∃ kv ∈ sphere p,
      layer.getBlockPtrByIndex kv.1 = true ∧ kv.2 ≠ [])
    (hunobs : ∀ kv ∈ sphere p, ∀ vi ∈ kv.2,
      layer.isValidVoxelIndex kv.1 vi = false ∨
      (layer.getVoxelByVoxelIndex kv.1 vi).weight < kEpsilon) :
    TsdfVoxbloxValidityChecker.isValid bounds false layer sphere p = true ∧
    TsdfVoxbloxValidityChecker.isValid bounds true layer sphere p = false := by
  have hfalse :
      TsdfVoxbloxValidityChecker.checkCollisionWithRobot false layer
        (sphere p) = false := by
    rw [TsdfVoxbloxValidityChecker.checkCollisionWithRobot]
    rw [List.any_eq_false]
    intro kv hkv
    cases hblock : layer.getBlockPtrByIndex kv.1 with
    | false => simp [hblock]
    | true =>
      rw [if_neg (by simp [hblock])]
      simp only [List.any_eq_true, not_exists]
      intro vi
      rintro ⟨hvi, hpred⟩
      rcases hunobs kv hkv vi hvi with hinv | hw
      · rw [if_pos (by simp [hinv])] at hpred
        simp at hpred
      · by_cases hval : layer.isValidVoxelIndex kv.1 vi = true
        · rw [if_neg (by simp [hval]), if_pos hw] at hpred
          simp at hpred
        · rw [if_pos (by simp at hval; simp [hval])] at hpred
          simp at hpred
  have htrue :
      TsdfVoxbloxValidityChecker.checkCollisionWithRobot true layer
        (sphere p) = true := by
    rw [TsdfVoxbloxValidityChecker.checkCollisionWithRobot]
    rw [List.any_eq_true]
    obtain ⟨kv, hkv, hblock, hne2⟩ := hne
    obtain ⟨vi, hvi⟩ := List.exists_mem_of_ne_nil kv.2 hne2
    refine ⟨kv, hkv, ?_⟩
    rw [if_neg (by simp [hblock])]
    rw [List.any_eq_true]
    refine ⟨vi, hvi, ?_⟩
    rcases hunobs kv hkv vi hvi with hinv | hw
    · rw [if_pos (by simp [hinv])]
    · by_cases hval : layer.isValidVoxelIndex kv.1 vi = true
      · rw [if_neg (by simp [hval]), if_pos hw]
      · rw [if_pos (by simp at hval; simp [hval])]
  constructor
  · rw [TsdfVoxbloxValidityChecker.isValid,
      isValid_of_bounds_true bounds _ p hb]
    simp [hfalse]
  · rw [TsdfVoxbloxValidityChecker.isValid,
      isValid_of_bounds_true bounds _ p hb]
    simp [htrue]

/-- Witness for C4 (corrected): one allocated block at the origin, its
single visited voxel unobserved (weight `0 < kEpsilon`): the flag flips
the verdict. -/
theorem tsdf_unknown_policy_witness :
    TsdfVoxbloxValidityChecker.isValid (fun _ => true) false
      unobservedTsdfLayer
      (fun _ => [(((0 : ℤ), (0 : ℤ), (0 : ℤ)),
        [((0 : ℤ), (0 : ℤ), (0 : ℤ))])])
      ((0 : ℚ), (0 : ℚ), (0 : ℚ)) = true ∧
    TsdfVoxbloxValidityChecker.isValid (fun _ => true) true
      unobservedTsdfLayer
      (fun _ => [(((0 : ℤ), (0 : ℤ), (0 : ℤ)),
        [((0 : ℤ), (0 : ℤ), (0 : ℤ))])])
      ((0 : ℚ), (0 : ℚ), (0 : ℚ)) = false :=
  tsdf_unknown_policy (fun _ => true) unobservedTsdfLayer
    (fun _ => [(((0 : ℤ), (0 : ℤ), (0 : ℤ)), [((0 : ℤ), (0 : ℤ), (0 : ℤ))])])
    ((0 : ℚ), (0 : ℚ), (0 : ℚ)) rfl
    ⟨(((0 : ℤ), (0 : ℤ), (0 : ℤ)), [((0 : ℤ), (0 : ℤ), (0 : ℤ))]),
      by simp, rfl, by simp⟩
    (by
      intro kv hkv vi hvi
      exact Or.inr (by norm_num [unobservedTsdfLayer, kEpsilon]))

/-- The occupancy-sphere-scan collision verdict is monotone under
enlarging the sphere enumeration (each block/voxel pair of the smaller
enumeration appears in the larger one): the per-voxel trigger depends
only on the pair itself. -/
lemma tsdf_checkCollision_mono (flag : Bool) (layer : TsdfLayer)
    (e1 e2 : List (BlockIndex × List VoxelIndex))
    (hsub : ∀ b l1, (b, l1) ∈ e1 → ∀ vi ∈ l1, ∃ l2, (b, l2) ∈ e2 ∧ vi ∈ l2)
    (h : TsdfVoxbloxValidityChecker.checkCollisionWithRobot flag layer e1 =
      true) :
    TsdfVoxbloxValidityChecker.checkCollisionWithRobot flag layer e2 =
      true := by
  rw [TsdfVoxbloxValidityChecker.checkCollisionWithRobot,
    List.any_eq_true] at h ⊢
  obtain ⟨kv, hkv, hpred⟩ := h
  cases hblock : layer.getBlockPtrByIndex kv.1 with
  | false => rw [if_pos (by simp [hblock])] at hpred; simp at hpred
  | true =>
    rw [if_neg (by simp [hblock])] at hpred
    rw [List.any_eq_true] at hpred
    obtain ⟨vi, hvi, hvoxel⟩ := hpred
    obtain ⟨l2, hl2, hvi2⟩ := hsub kv.1 kv.2 hkv vi hvi
    refine ⟨(kv.1, l2), hl2, ?_⟩
    rw [if_neg (by simp [hblock])]
    rw [List.any_eq_true]
    exact ⟨vi, hvi2, hvoxel⟩

/-- The signed-distance threshold verdict is monotone in the radius. -/
lemma esdf_checkCollision_mono (r1 r2 : ℚ) (f : Pos3 → Option ℚ) (p : Pos3)
    (hr : r1 ≤ r2)
    (h : EsdfVoxbloxValidityChecker.checkCollisionWithRobot r1 f p = true) :
    EsdfVoxbloxValidityChecker.checkCollisionWithRobot r2 f p = true := by
  rw [EsdfVoxbloxValidityChecker.checkCollisionWithRobot] at h ⊢
  cases hf : f p with
  | none => rfl
  | some distance =>
    rw [hf] at h
    simp only [decide_eq_true_eq] at h
    simp only [decide_eq_true_eq]
    exact le_trans h hr

/-- The voxel-native signed-distance verdict is monotone in the
radius. -/
lemma esdfAtVoxel_mono (r1 r2 : ℚ) (vox : GlobalIndex → Option ℚ)
    (g : GlobalIndex) (hr : r1 ≤ r2)
    (h : EsdfVoxbloxValidityChecker.checkCollisionWithRobotAtVoxel r1 vox g =
      true) :
    EsdfVoxbloxValidityChecker.checkCollisionWithRobotAtVoxel r2 vox g =
      true := by
  rw [EsdfVoxbloxValidityChecker.checkCollisionWithRobotAtVoxel] at h ⊢
  cases hv : vox g with
  | none => rfl
  | some distance =>
    rw [hv] at h
    simp only [decide_eq_true_eq] at h
    simp only [decide_eq_true_eq]
    exact le_trans h hr

/-- The opaque-distance-function threshold verdict is monotone in the
radius. -/
lemma cblox_checkCollision_mono (r1 r2 : ℚ) (gmd : Pos3 → ℚ) (p : Pos3)
    (hr : r1 ≤ r2)
    (h : CbloxValidityChecker.checkCollisionWithRobot r1 gmd p = true) :
    CbloxValidityChecker.checkCollisionWithRobot r2 gmd p = true := by
  rw [CbloxValidityChecker.checkCollisionWithRobot] at h ⊢
  simp only [decide_eq_true_eq] at h
  simp only [decide_eq_true_eq]
  exact le_trans h hr

/-- A pointwise-stronger voxel collision check preserves grid-traversal
invalidity (the traversed index list does not depend on the check). -/
lemma voxblox_checkMotion_mono (c1 c2 : GlobalIndex → Bool) (v : ℚ)
    (indices : List GlobalIndex) (lv1 lv2 : LastValid Pos3)
    (hmono : ∀ g, c1 g = true → c2 g = true)
    (h : (VoxbloxMotionValidator.checkMotion c1 v indices lv1).1 = false) :
    (VoxbloxMotionValidator.checkMotion c2 v indices lv2).1 = false := by
  have h1 := (voxbloxLoop_false_iff c1 v indices.length indices 0 lv1).mp h
  obtain ⟨g, hg, hcg⟩ := h1
  exact (voxbloxLoop_false_iff c2 v indices.length indices 0 lv2).mpr
    ⟨g, hg, hmono g hcg⟩

/-- C7 corrected: radius monotonicity (invalid stays invalid as the
radius grows) holds for the three point-checker strategies — for the
occupancy-sphere-scan via enlargement of the sphere enumeration, whose
membership is radius-monotone per its spec — both at collision level
and at `isValid` level, and for the grid-traversal motion validator
over the signed-distance voxel check; the adaptive-stepping motion
validator is NOT radius-monotone (see the counterexample): its sample
points depend on the radius through clearance-limited stepping. -/
theorem radius_monotonicity :
    (∀ (flag : Bool) (layer : TsdfLayer)
       (e1 e2 : List (BlockIndex × List VoxelIndex)),
       (∀ b l1, (b, l1) ∈ e1 → ∀ vi ∈ l1, ∃ l2, (b, l2) ∈ e2 ∧ vi ∈ l2) →
       TsdfVoxbloxValidityChecker.checkCollisionWithRobot flag layer e1 =
         true →
       TsdfVoxbloxValidityChecker.checkCollisionWithRobot flag layer e2 =
         true) ∧
    (∀ (bounds : Pos3 → Bool) (flag : Bool) (layer : TsdfLayer)
       (sphere1 sphere2 : Pos3 → List (BlockIndex × List VoxelIndex))
       (p : Pos3),
       (∀ b l1, (b, l1) ∈ sphere1 p → ∀ vi ∈ l1,
         ∃ l2, (b, l2) ∈ sphere2 p ∧ vi ∈ l2) →
       TsdfVoxbloxValidityChecker.isValid bounds flag layer sphere1 p =
         false →
       TsdfVoxbloxValidityChecker.isValid bounds flag layer sphere2 p =
         false) ∧
    (∀ (r1 r2 : ℚ) (f : Pos3 → Option ℚ) (p : Pos3), r1 ≤ r2 →
       EsdfVoxbloxValidityChecker.checkCollisionWithRobot r1 f p = true →
       EsdfVoxbloxValidityChecker.checkCollisionWithRobot r2 f p = true) ∧
    (∀ (r1 r2 : ℚ) (vox : GlobalIndex → Option ℚ) (g : GlobalIndex),
       r1 ≤ r2 →
       EsdfVoxbloxValidityChecker.checkCollisionWithRobotAtVoxel r1 vox g =
         true →
       EsdfVoxbloxValidityChecker.checkCollisionWithRobotAtVoxel r2 vox g =
         true) ∧
    (∀ (bounds : Pos3 → Bool) (r1 r2 : ℚ) (f : Pos3 → Option ℚ) (p : Pos3),
       r1 ≤ r2 →
       VoxbloxValidityChecker.isValid bounds
         (EsdfVoxbloxValidityChecker.checkCollisionWithRobot r1 f) p =
         false →
       VoxbloxValidityChecker.isValid bounds
         (EsdfVoxbloxValidityChecker.checkCollisionWithRobot r2 f) p =
         false) ∧
    (∀ (r1 r2 : ℚ) (gmd : Pos3 → ℚ) (p : Pos3), r1 ≤ r2 →
       CbloxValidityChecker.checkCollisionWithRobot r1 gmd p = true →
       CbloxValidityChecker.checkCollisionWithRobot r2 gmd p = true) ∧
    (∀ (bounds : Pos3 → Bool) (r1 r2 : ℚ) (gmd : Pos3 → ℚ) (p : Pos3),
       r1 ≤ r2 →
       CbloxValidityChecker.isValid bounds r1 gmd p = false →
       CbloxValidityChecker.isValid bounds r2 gmd p = false) ∧
    (∀ (r1 r2 : ℚ) (vox : GlobalIndex → Option ℚ) (v : ℚ)
       (indices : List GlobalIndex) (lv1 lv2 : LastValid Pos3), r1 ≤ r2 →
       (VoxbloxMotionValidator.checkMotion
         (EsdfVoxbloxValidityChecker.checkCollisionWithRobotAtVoxel r1 vox)
         v indices lv1).1 = false →
       (VoxbloxMotionValidator.checkMotion
         (EsdfVoxbloxValidityChecker.checkCollisionWithRobotAtVoxel r2 vox)
         v indices lv2).1 = false) := by
  refine ⟨tsdf_checkCollision_mono, ?_, esdf_checkCollision_mono,
    esdfAtVoxel_mono, ?_, cblox_checkCollision_mono, ?_, ?_⟩
  · intro bounds flag layer sphere1 sphere2 p hsub h
    exact isValid_mono bounds _ _ p
      (tsdf_checkCollision_mono flag layer (sphere1 p) (sphere2 p) hsub) h
  · intro bounds r1 r2 f p hr h
    exact isValid_mono bounds _ _ p
      (esdf_checkCollision_mono r1 r2 f p hr) h
  · intro bounds r1 r2 gmd p hr h
    rw [CbloxValidityChecker.isValid] at h ⊢
    cases hb : bounds p with
    | false => simp [hb]
    | true =>
      rw [hb] at h
      simp only [Bool.not_true, Bool.false_eq_true, if_false] at h ⊢
      cases hc : CbloxValidityChecker.checkCollisionWithRobot r1 gmd p with
      | false => rw [hc] at h; simp at h
      | true => rw [cblox_checkCollision_mono r1 r2 gmd p hr hc]; rfl
  · intro r1 r2 vox v indices lv1 lv2 hr h
    exact voxblox_checkMotion_mono _ _ v indices lv1 lv2
      (fun g => esdfAtVoxel_mono r1 r2 vox g hr) h

/-- C7 counterexample: the adaptive-stepping motion validator is not
radius-monotone.  On a unit segment over `dNonMonotone` with voxel size
`1`: radius `1` marches `0 → 1/2` and collides at `1/2`
(`d = 1 ≤ 1`), so the motion is invalid; radius `2` has clearance
`12/5 - 2 = 2/5 < 1/2` at the start, takes the clearance-limited step
to `2/5`, then `9/10`, then `7/5`, never sampling `1/2`, and the goal
is free — the motion is valid for the LARGER radius. -/
theorem radius_monotonicity_counterexample :
    (1 : ℚ) ≤ 2 ∧
    (CbloxMotionValidator.checkMotion 1 1 1 dNonMonotone 20 (none, 0)).map
      Prod.fst = some false ∧
    (CbloxMotionValidator.checkMotion 2 1 1 dNonMonotone 20 (none, 0)).map
      Prod.fst = some true := by
  refine ⟨by norm_num, ?_, ?_⟩
  · rw [CbloxMotionValidator.checkMotion]
    rw [show (20 : ℕ) = 19 + 1 from rfl, cbloxLoop_succ]
    rw [if_pos (by norm_num), if_neg (by norm_num [dNonMonotone]),
      if_neg (by norm_num [dNonMonotone])]
    rw [show (0 : ℚ) + 1 / 2 = 1 / 2 by norm_num]
    rw [show (19 : ℕ) = 18 + 1 from rfl, cbloxLoop_succ]
    rw [if_pos (by norm_num [abs_of_pos]), if_pos (by norm_num [dNonMonotone])]
    rfl
  · rw [CbloxMotionValidator.checkMotion]
    rw [show (20 : ℕ) = 19 + 1 from rfl, cbloxLoop_succ]
    rw [if_pos (by norm_num), if_neg (by norm_num [dNonMonotone]),
      if_pos (by norm_num [dNonMonotone]), if_neg (by norm_num [dNonMonotone])]
    rw [show (0 : ℚ) + (dNonMonotone 0 - 2) = 2 / 5 by norm_num [dNonMonotone]]
    rw [show (19 : ℕ) = 18 + 1 from rfl, cbloxLoop_succ]
    rw [if_pos (by norm_num [abs_of_pos]), if_neg (by norm_num [dNonMonotone]),
      if_neg (by norm_num [dNonMonotone])]
    rw [show (2 / 5 : ℚ) + 1 / 2 = 9 / 10 by norm_num]
    rw [show (18 : ℕ) = 17 + 1 from rfl, cbloxLoop_succ]
    rw [if_pos (by norm_num [abs_of_pos]), if_neg (by norm_num [dNonMonotone]),
      if_neg (by norm_num [dNonMonotone])]
    rw [show (9 / 10 : ℚ) + 1 / 2 = 7 / 5 by norm_num]
    rw [show (17 : ℕ) = 16 + 1 from rfl, cbloxLoop_succ]
    rw [if_neg (by norm_num [abs_of_pos]), if_neg (by norm_num [dNonMonotone])]
    rfl

/-- Witness for C7 (corrected): a larger radius keeps a colliding state
colliding for the signed-distance checker, and keeps an invalid state
invalid for the opaque-distance checker. -/
theorem radius_monotonicity_witness :
    EsdfVoxbloxValidityChecker.checkCollisionWithRobot 2 (fun _ => some 1)
      ((0 : ℚ), (0 : ℚ), (0 : ℚ)) = true ∧
    CbloxValidityChecker.isValid (fun _ => true) 2 (fun _ => 1)
      ((0 : ℚ), (0 : ℚ), (0 : ℚ)) = false :=
  ⟨radius_monotonicity.2.2.1 1 2 (fun _ => some 1)
      ((0 : ℚ), (0 : ℚ), (0 : ℚ)) (by norm_num)
      (by norm_num [EsdfVoxbloxValidityChecker.checkCollisionWithRobot]),
    radius_monotonicity.2.2.2.2.2.2.1 (fun _ => true) 1 2 (fun _ => 1)
      ((0 : ℚ), (0 : ℚ), (0 : ℚ)) (by norm_num)
      (by norm_num [CbloxValidityChecker.isValid,
        CbloxValidityChecker.checkCollisionWithRobot])⟩

end OmplVoxblox
